import Mathlib

/-!
Shallow embedding of `klippy/kinematics/corexy_abc.py` (class
`CoreXYKinematicsABC`).  Machine floats are modelled as exact rationals,
Python lists as Lean lists, and raised exceptions as `Except` errors.
External collaborators (toolhead, stepper rails, config) are modelled by
the data this module reads from them and the registrations it performs on
them.
-/

namespace CoreXY

/-- First three components of a Klipper 4-component coordinate (the `e`
component is never read by this module). -/
structure Vec3 where
  a0 : ℚ
  a1 : ℚ
  a2 : ℚ
deriving DecidableEq, Inhabited

/-- Indexing `v[i]` for `i` in `(0, 1, 2)`. -/
def Vec3.get (v : Vec3) : Fin 3 → ℚ
  | ⟨0, _⟩ => v.a0
  | ⟨1, _⟩ => v.a1
  | ⟨2, _⟩ => v.a2

/-- Data this module reads from a `PrinterRail` collaborator
(`stepper.LookupMultiRail`), together with the registrations the module
itself performs on the rail: the stepper set of the rail's first endstop
(`get_endstops()[0][0]`), the itersolve binding, and the last commanded
position. -/
structure Rail where
  name : String
  steppers : List Nat
  endstop_steppers : List Nat
  position_min : ℚ
  position_max : ℚ
  position_endstop : ℚ
  positive_dir : Bool
  solver : Option String
  commanded_pos : Option Vec3
deriving DecidableEq, Inhabited

/-- Source `rail.get_range()`. -/
def Rail.get_range (r : Rail) : ℚ × ℚ := (r.position_min, r.position_max)

/-- Modelled from the spec: `rail.set_position(newpos)` (external
`stepper.py` code) pushes the target position through to the rail's own
position register; it does not touch the rail's range or homing data. -/
def Rail.set_position (r : Rail) (newpos : Vec3) : Rail :=
  { r with commanded_pos := some newpos }

/-- Message of the axis-count check in `__init__` (the source message
itself says CartKinematicsABC, copied from the cartesian variant). -/
def mismatchMsg (axis_config : List Nat) (axis_names : List Char) : String :=
  "CartKinematicsABC: The amount of axis indexes in " ++ toString axis_config
    ++ " does not match the count of axis names " ++ String.mk axis_names ++ "."

/-- Construction failures: the explicit `raise Exception` of the axis-count
check, and Python runtime errors from indexing `self.rails` (or building
`toolhead.Coord`) with the wrong number of rails. -/
inductive InitError where
  | configError (msg : String)
  | indexError
deriving DecidableEq

/-- State of a `CoreXYKinematicsABC` instance: the fields read or written
by the methods under verification. -/
structure KinState where
  rails : List Rail
  limits : List (ℚ × ℚ)
  max_z_velocity : ℚ
  max_z_accel : ℚ
  axes_min : List ℚ
  axes_max : List ℚ
deriving DecidableEq, Inhabited

/-- Source `CoreXYKinematicsABC.__init__`, modelling the parts that decide
the claims: the axis-count check, rail lookup (one rail per configured
letter), endstop cross-registration between rails 0 and 1, itersolve setup
on rails 0, 1 and 2, the `reset_limits` call, and the axis min/max bounds
from the rail ranges.  Logging, trapq wiring, event registration and
step-generator registration are external side effects that do not affect
the state read by the other methods.  A Python `IndexError` from `rails[i]`
(or a `TypeError` from `toolhead.Coord` when more than 3 rails exist)
becomes `InitError.indexError`. -/
def mkKinematics (axes_ids : List Nat) (axis_set_letters : List Char)
    (lookupRail : Char → Rail) (max_z_velocity max_z_accel : ℚ) :
    Except InitError KinState :=
  if axes_ids.length ≠ axis_set_letters.length then
    .error (.configError (mismatchMsg axes_ids axis_set_letters))
  else
    match axis_set_letters.map lookupRail with
    | r0 :: r1 :: rest =>
      -- for s in rails[1].get_steppers(): rails[0].endstop.add_stepper(s)
      let r0 := { r0 with endstop_steppers := r0.endstop_steppers ++ r1.steppers }
      -- for s in rails[0].get_steppers(): rails[1].endstop.add_stepper(s)
      let r1 := { r1 with endstop_steppers := r1.endstop_steppers ++ r0.steppers }
      match rest with
      | r2 :: rest2 =>
        -- rails[0..2].setup_itersolve(...)
        let r0 := { r0 with solver := some "corexy_stepper_alloc +" }
        let r1 := { r1 with solver := some "corexy_stepper_alloc -" }
        let r2 := { r2 with solver := some "cartesian_stepper_alloc z" }
        match rest2 with
        | [] =>
          let rails := [r0, r1, r2]
          let limits := List.replicate 3 ((1 : ℚ), (-1 : ℚ))
          let ranges := rails.map Rail.get_range
          .ok { rails := rails, limits := limits,
                max_z_velocity := max_z_velocity, max_z_accel := max_z_accel,
                axes_min := ranges.map Prod.fst,
                axes_max := ranges.map Prod.snd }
        -- toolhead.Coord takes exactly the 4 fields x, y, z, e
        | _ :: _ => .error .indexError
      -- rails[2] in setup_itersolve is out of range
      | [] => .error .indexError
    -- rails[1] in the endstop cross-registration is out of range
    | _ => .error .indexError

/-- Source `reset_limits`: all 3 slots become the unhomed sentinel. -/
def reset_limits (s : KinState) : KinState :=
  { s with limits := List.replicate 3 ((1 : ℚ), (-1 : ℚ)) }

/-- Source `get_steppers`. -/
def get_steppers (s : KinState) : List Nat :=
  (s.rails.map Rail.steppers).flatten

/-- Source `calc_position`: the forward CoreXY transform applied to the
measured rail positions (looked up by rail name). -/
def calc_position (s : KinState) (stepper_positions : String → ℚ) : List ℚ :=
  let pos := s.rails.map (fun rail => stepper_positions rail.name)
  [1/2 * (pos.getD 0 0 + pos.getD 1 0),
   1/2 * (pos.getD 0 0 - pos.getD 1 0),
   pos.getD 2 0]

/-- Loop body of `set_position`: Python
`for i, rail in enumerate(self.rails)` pushes the new position to every
rail and, for indices in `homing_axes`, sets that slot of `limits` to the
rail's range. -/
def set_position_go (limits : List (ℚ × ℚ)) (rails : List Rail) (idx : Nat)
    (newpos : Vec3) (homing_axes : List Nat) : List Rail × List (ℚ × ℚ) :=
  match rails with
  | [] => ([], limits)
  | r :: rs =>
    let r2 := Rail.set_position r newpos
    let limits2 := if idx ∈ homing_axes then limits.set idx r2.get_range else limits
    let rec2 := set_position_go limits2 rs (idx + 1) newpos homing_axes
    (r2 :: rec2.1, rec2.2)

/-- Source `set_position`. -/
def set_position (s : KinState) (newpos : Vec3) (homing_axes : List Nat) :
    KinState :=
  let rec2 := set_position_go s.limits s.rails 0 newpos homing_axes
  { s with rails := rec2.1, limits := rec2.2 }

/-- Source `note_z_not_homed`. -/
def note_z_not_homed (s : KinState) : KinState :=
  { s with limits := s.limits.set 2 ((1 : ℚ), (-1 : ℚ)) }

/-- Per-axis homing move descriptor: the arguments of one
`homing_state.home_rails([rail], forcepos, homepos)` call. -/
structure HomingMove where
  rails : List Rail
  forcepos : List (Option ℚ)
  homepos : List (Option ℚ)
deriving DecidableEq, Inhabited

/-- Body of the loop in source `home`, for one axis. -/
def home_axis (s : KinState) (axis : Fin 3) : HomingMove :=
  let rail := s.rails.getD axis.val default
  let position_min := rail.position_min
  let position_max := rail.position_max
  let homepos : List (Option ℚ) :=
    ([none, none, none, none] : List (Option ℚ)).set axis.val
      (some rail.position_endstop)
  let forcepos :=
    if rail.positive_dir then
      homepos.set axis.val
        (some (rail.position_endstop - 3/2 * (rail.position_endstop - position_min)))
    else
      homepos.set axis.val
        (some (rail.position_endstop + 3/2 * (position_max - rail.position_endstop)))
  { rails := [rail], forcepos := forcepos, homepos := homepos }

/-- Source `home`: each axis is homed independently and in order;
`homing_state.home_rails` is an external collaborator, so `home` is
modelled as the ordered list of descriptors it is called with. -/
def home (s : KinState) (homing_axes : List (Fin 3)) : List HomingMove :=
  homing_axes.map (home_axis s)

/-- Source `_motor_off`: the `stepper_enable:motor_off` event handler. -/
def motor_off (s : KinState) (print_time : ℚ) : KinState :=
  reset_limits s

/-- Move rejection reasons: `move.move_error("Must home axis first")` and
the generic `move.move_error()` (default message Move out of range). -/
inductive MoveError where
  | mustHomeFirst
  | outOfRange
deriving DecidableEq

/-- Data `check_move` reads from a toolhead `Move`: end position, per-axis
displacement, total distance, and the caps that `limit_speed` lowers. -/
structure Move where
  end_pos : Vec3
  axes_d : Vec3
  move_d : ℚ
  max_velocity : ℚ
  max_accel : ℚ
deriving DecidableEq, Inhabited

/-- Python `self.limits[i]`; `limits` always has length 3 after
`reset_limits`, so the default of `getD` is never read. -/
def limAt (limits : List (ℚ × ℚ)) (i : Nat) : ℚ × ℚ :=
  limits.getD i ((1 : ℚ), (-1 : ℚ))

/-- Condition of the per-axis test in source `_check_endstops`: the axis
has nonzero displacement (`move.axes_d[i]` truthy) and the end position
lies outside the limit interval. -/
def violates (limits : List (ℚ × ℚ)) (move : Move) (i : Fin 3) : Prop :=
  move.axes_d.get i ≠ 0 ∧
    (move.end_pos.get i < (limAt limits i.val).1 ∨
      move.end_pos.get i > (limAt limits i.val).2)

instance (limits : List (ℚ × ℚ)) (move : Move) (i : Fin 3) :
    Decidable (violates limits move i) := by
  unfold violates
  infer_instance

/-- One iteration of the loop in source `_check_endstops`. -/
def checkEndstopAxis (limits : List (ℚ × ℚ)) (move : Move) (i : Fin 3) :
    Except MoveError Unit :=
  if violates limits move i then
    if (limAt limits i.val).1 > (limAt limits i.val).2 then
      .error .mustHomeFirst
    else
      .error .outOfRange
  else
    .ok ()

/-- Source `_check_endstops`: the loop `for i in (0, 1, 2)`, propagating
the first raised error. -/
def check_endstops (limits : List (ℚ × ℚ)) (move : Move) :
    Except MoveError Unit :=
  match checkEndstopAxis limits move 0 with
  | .error e => .error e
  | .ok _ =>
    match checkEndstopAxis limits move 1 with
    | .error e => .error e
    | .ok _ => checkEndstopAxis limits move 2

/-- Modelled from the spec: toolhead `Move.limit_speed` (external
`toolhead.py` code) is a minimum-of operation on the move's velocity and
acceleration caps; it never raises a pre-existing cap. -/
def limit_speed (move : Move) (speed accel : ℚ) : Move :=
  { move with
      max_velocity := min move.max_velocity speed,
      max_accel := min move.max_accel accel }

/-- Source `check_move`: the XY window check (calling `_check_endstops` on
violation), the fast path for moves without Z displacement, and the Z
velocity/acceleration de-rating by `move_d / abs(axes_d[2])`. -/
def check_move (s : KinState) (move : Move) : Except MoveError Move :=
  match (if move.end_pos.a0 < (limAt s.limits 0).1
            ∨ move.end_pos.a0 > (limAt s.limits 0).2
            ∨ move.end_pos.a1 < (limAt s.limits 1).1
            ∨ move.end_pos.a1 > (limAt s.limits 1).2 then
          check_endstops s.limits move
        else .ok ()) with
  | .error e => .error e
  | .ok _ =>
    if move.axes_d.a2 = 0 then
      -- Normal XY move - use defaults
      .ok move
    else
      match check_endstops s.limits move with
      | .error e => .error e
      | .ok _ =>
        .ok (limit_speed move
          (s.max_z_velocity * (move.move_d / |move.axes_d.a2|))
          (s.max_z_accel * (move.move_d / |move.axes_d.a2|)))

/-- Return value of source `get_status`. -/
structure Status where
  homed_axes : String
  axis_minimum : List ℚ
  axis_maximum : List ℚ
deriving DecidableEq

/-- Source `get_status`: the letters of `"xyz"` whose limit slot is homed
(`l <= h`), plus the configured bounds. -/
def get_status (s : KinState) : Status :=
  let axes := (List.zip ['x', 'y', 'z'] s.limits).filterMap
    (fun p => if p.2.1 ≤ p.2.2 then some p.1 else none)
  { homed_axes := String.mk axes,
    axis_minimum := s.axes_min,
    axis_maximum := s.axes_max }

/-! Concrete fixtures used to instantiate theorems on closed inputs. -/

/-- Rail with endstop at 200, range `[0, 200]`, positive trigger
direction, and one stepper. -/
def railW (n : String) (stp : Nat) : Rail :=
  { name := n, steppers := [stp], endstop_steppers := [],
    position_min := 0, position_max := 200, position_endstop := 200,
    positive_dir := true, solver := none, commanded_pos := none }

/-- Rail lookup collaborator used for construction fixtures. -/
def lookupW : Char → Rail := fun c => railW (String.mk [c]) c.toNat

/-- The state built by `mkKinematics [3, 4, 5] [A, B, C] lookupW 5 5`. -/
def stCW : KinState :=
  { rails :=
      [{ railW "A" 65 with
          endstop_steppers := [66]
          solver := some "corexy_stepper_alloc +" },
       { railW "B" 66 with
          endstop_steppers := [65]
          solver := some "corexy_stepper_alloc -" },
       { railW "C" 67 with solver := some "cartesian_stepper_alloc z" }],
    limits := [(1, -1), (1, -1), (1, -1)],
    max_z_velocity := 5, max_z_accel := 5,
    axes_min := [0, 0, 0], axes_max := [200, 200, 200] }

/-- Fully homed state with every limit `[0, 100]`. -/
def stHomedW : KinState :=
  { rails := [railW "a" 1, railW "b" 2, railW "c" 3],
    limits := [(0, 100), (0, 100), (0, 100)],
    max_z_velocity := 5, max_z_accel := 7,
    axes_min := [0, 0, 0], axes_max := [200, 200, 200] }

/-- State with axis 0 homed to `[0, 100]`, axis 1 unhomed (sentinel),
axis 2 homed to `[0, 100]`. -/
def stMixedW : KinState :=
  { stHomedW with limits := [(0, 100), (1, -1), (0, 100)] }

/-- State with axis 0 unhomed (sentinel) and axes 1, 2 homed. -/
def stUnhomedXW : KinState :=
  { stHomedW with limits := [(1, -1), (0, 100), (0, 100)] }

/-- State with all three axes unhomed. -/
def stAllUnhomedW : KinState :=
  { stHomedW with limits := [(1, -1), (1, -1), (1, -1)] }

/-- Move displacing axes 0 and 1, ending at `(200, 5, 0)`. -/
def mvMixedW : Move :=
  { end_pos := ⟨200, 5, 0⟩, axes_d := ⟨1, 1, 0⟩, move_d := 2,
    max_velocity := 10, max_accel := 10 }

/-- Move with zero displacement on every axis, ending at `(50, 5, 0)`. -/
def mvStillW : Move :=
  { end_pos := ⟨50, 5, 0⟩, axes_d := ⟨0, 0, 0⟩, move_d := 0,
    max_velocity := 10, max_accel := 10 }

/-- Move displacing only axis 0, ending out of range at `(200, 0, 0)`. -/
def mvXOutW : Move :=
  { end_pos := ⟨200, 0, 0⟩, axes_d := ⟨1, 0, 0⟩, move_d := 1,
    max_velocity := 10, max_accel := 10 }

/-- In-range move displacing only axis 2 by 10 over distance 10. -/
def mvZW : Move :=
  { end_pos := ⟨10, 10, 10⟩, axes_d := ⟨0, 0, 10⟩, move_d := 10,
    max_velocity := 100, max_accel := 100 }

/-- In-range move with no displacement at all. -/
def mvIdleW : Move :=
  { end_pos := ⟨1, 1, 1⟩, axes_d := ⟨0, 0, 0⟩, move_d := 0,
    max_velocity := 100, max_accel := 100 }

/-- Stepper position map sending rail a to 10, rail b to 4, rail c to 5. -/
def spW : String → ℚ :=
  fun n => if n = "a" then 10 else if n = "b" then 4 else 5

/-! Helper lemmas. -/

@[simp]
theorem Vec3.get_zero (v : Vec3) : v.get 0 = v.a0 := rfl

@[simp]
theorem Vec3.get_one (v : Vec3) : v.get 1 = v.a1 := rfl

@[simp]
theorem Vec3.get_two (v : Vec3) : v.get 2 = v.a2 := rfl

theorem checkEndstopAxis_of_violates (limits : List (ℚ × ℚ)) (move : Move)
    (i : Fin 3) (h : violates limits move i) :
    checkEndstopAxis limits move i =
      .error (if (limAt limits i.val).1 > (limAt limits i.val).2
              then MoveError.mustHomeFirst else MoveError.outOfRange) := by
  unfold checkEndstopAxis
  rw [if_pos h]
  split <;> rfl

theorem checkEndstopAxis_of_not_violates (limits : List (ℚ × ℚ)) (move : Move)
    (i : Fin 3) (h : ¬ violates limits move i) :
    checkEndstopAxis limits move i = .ok () := by
  unfold checkEndstopAxis
  rw [if_neg h]

theorem check_endstops_ok (limits : List (ℚ × ℚ)) (move : Move)
    (h : ∀ i : Fin 3, ¬ violates limits move i) :
    check_endstops limits move = .ok () := by
  unfold check_endstops
  rw [checkEndstopAxis_of_not_violates limits move 0 (h 0),
    checkEndstopAxis_of_not_violates limits move 1 (h 1),
    checkEndstopAxis_of_not_violates limits move 2 (h 2)]

theorem check_endstops_first (limits : List (ℚ × ℚ)) (move : Move)
    (j : Fin 3) (hj : violates limits move j)
    (hmin : ∀ k : Fin 3, k < j → ¬ violates limits move k) :
    check_endstops limits move =
      .error (if (limAt limits j.val).1 > (limAt limits j.val).2
              then MoveError.mustHomeFirst else MoveError.outOfRange) := by
  unfold check_endstops
  fin_cases j
  · rw [checkEndstopAxis_of_violates limits move 0 hj]
    rfl
  · rw [checkEndstopAxis_of_not_violates limits move 0 (hmin 0 (by decide)),
      checkEndstopAxis_of_violates limits move 1 hj]
    rfl
  · rw [checkEndstopAxis_of_not_violates limits move 0 (hmin 0 (by decide)),
      checkEndstopAxis_of_not_violates limits move 1 (hmin 1 (by decide)),
      checkEndstopAxis_of_violates limits move 2 hj]
    rfl

theorem exists_first_violation (limits : List (ℚ × ℚ)) (move : Move)
    (i : Fin 3) (h : violates limits move i) :
    ∃ j : Fin 3, violates limits move j ∧
      ∀ k : Fin 3, k < j → ¬ violates limits move k := by
  by_cases v0 : violates limits move 0
  · exact ⟨0, v0, fun k hk => absurd hk (by simp [Fin.lt_def])⟩
  · by_cases v1 : violates limits move 1
    · refine ⟨1, v1, fun k hk => ?_⟩
      have hk0 : k = 0 := by
        apply Fin.ext
        have := Fin.lt_def.mp hk
        omega
      rw [hk0]
      exact v0
    · have v2 : violates limits move 2 := by
        fin_cases i
        · exact absurd h v0
        · exact absurd h v1
        · exact h
      refine ⟨2, v2, fun k hk => ?_⟩
      rcases k with ⟨kv, hkv3⟩
      have hkv : kv < 2 := by simpa [Fin.lt_def] using hk
      interval_cases kv
      · exact v0
      · exact v1

theorem check_move_error_of_first_violation (s : KinState) (move : Move)
    (j : Fin 3) (hj : violates s.limits move j)
    (hmin : ∀ k : Fin 3, k < j → ¬ violates s.limits move k) :
    check_move s move =
      .error (if (limAt s.limits j.val).1 > (limAt s.limits j.val).2
              then MoveError.mustHomeFirst else MoveError.outOfRange) := by
  have hce := check_endstops_first s.limits move j hj hmin
  unfold check_move
  by_cases hxy : move.end_pos.a0 < (limAt s.limits 0).1
      ∨ move.end_pos.a0 > (limAt s.limits 0).2
      ∨ move.end_pos.a1 < (limAt s.limits 1).1
      ∨ move.end_pos.a1 > (limAt s.limits 1).2
  · rw [if_pos hxy, hce]
  · rw [if_neg hxy]
    push_neg at hxy
    obtain ⟨hx1, hx2, hy1, hy2⟩ := hxy
    have hj2 : j = 2 := by
      rcases j with ⟨jv, hjv⟩
      interval_cases jv
      · exact absurd hj (by
          intro hv
          rcases hv.2 with hlt | hgt
          · simp only [Vec3.get_zero] at hlt
            exact absurd hlt (not_lt.mpr hx1)
          · simp only [Vec3.get_zero] at hgt
            exact absurd hgt (not_lt.mpr hx2))
      · exact absurd hj (by
          intro hv
          rcases hv.2 with hlt | hgt
          · simp only [Vec3.get_one] at hlt
            exact absurd hlt (not_lt.mpr hy1)
          · simp only [Vec3.get_one] at hgt
            exact absurd hgt (not_lt.mpr hy2))
      · rfl
    subst hj2
    have hz : move.axes_d.a2 ≠ 0 := by
      have := hj.1
      simpa using this
    rw [if_neg hz, hce]

theorem set_position_rails3 (s : KinState) (r0 r1 r2 : Rail)
    (m0 m1 m2 : ℚ × ℚ) (hr : s.rails = [r0, r1, r2])
    (hl : s.limits = [m0, m1, m2]) (newpos : Vec3) (homing_axes : List Nat) :
    set_position s newpos homing_axes =
      { s with
        rails := [r0.set_position newpos, r1.set_position newpos,
                  r2.set_position newpos],
        limits := [if 0 ∈ homing_axes then r0.get_range else m0,
                   if 1 ∈ homing_axes then r1.get_range else m1,
                   if 2 ∈ homing_axes then r2.get_range else m2] } := by
  unfold set_position
  rw [hr, hl]
  by_cases h0 : 0 ∈ homing_axes <;> by_cases h1 : 1 ∈ homing_axes <;>
    by_cases h2 : 2 ∈ homing_axes <;>
      simp [set_position_go, h0, h1, h2, Rail.set_position, Rail.get_range,
        List.set]

/-! Claim theorems. -/

/-- Claim C3: `calc_position` maps rail positions `(p0, p1, p2)` to machine
coordinates `(0.5*(p0+p1), 0.5*(p0-p1), p2)`, and recovers any machine
coordinate `(x, y)` obtainable from some rail pair. -/
theorem calc_position_forward_transform (st : KinState) (r0 r1 r2 : Rail)
    (hr : st.rails = [r0, r1, r2]) (sp : String → ℚ) (x y : ℚ) :
    calc_position st sp =
      [1/2 * (sp r0.name + sp r1.name), 1/2 * (sp r0.name - sp r1.name),
       sp r2.name] ∧
    (sp r0.name = x + y → sp r1.name = x - y →
      calc_position st sp = [x, y, sp r2.name]) := by
  constructor
  · simp [calc_position, hr]
  · intro h0 h1
    simp [calc_position, hr, h0, h1]
    constructor <;> ring

/-- Witness for C3 at `p0 = 10, p1 = 4, p2 = 5`, recovering `x = 7, y = 3`. -/
theorem calc_position_forward_transform_witness :
    calc_position stHomedW spW = [7, 3, 5] := by
  have h := calc_position_forward_transform stHomedW (railW "a" 1)
    (railW "b" 2) (railW "c" 3) rfl spW 7 3
  have ha : spW (railW "a" 1).name = 10 := rfl
  have hb : spW (railW "b" 2).name = 4 := rfl
  have hc : spW (railW "c" 3).name = 5 := rfl
  have h2 := h.2 (by rw [ha]; norm_num) (by rw [hb]; norm_num)
  rw [hc] at h2
  exact h2

/-- Claim C6: `reset_limits` sets all 3 limit slots to the unhomed sentinel
`(1.0, -1.0)`, and the motor-off event handler calls it unconditionally, so
after a motor-disable event every limit equals the sentinel regardless of
the prior state. -/
theorem reset_limits_and_motor_off_sentinel (s : KinState) (print_time : ℚ) :
    (reset_limits s).limits = [(1, -1), (1, -1), (1, -1)] ∧
    motor_off s print_time = reset_limits s ∧
    (motor_off s print_time).limits = [(1, -1), (1, -1), (1, -1)] :=
  ⟨rfl, rfl, rfl⟩

/-- Claim C1 (amended): for every axis `i` with nonzero displacement whose
end position lies outside axis `i` limit, `check_move` rejects the move;
the failure reason corresponds to the lowest-indexed violating axis `j`:
Must home axis first when axis `j` limit is the unhomed sentinel
(`low > high`), the generic out-of-range error otherwise. -/
theorem checkMove_rejects_displaced_out_of_limit (s : KinState) (move : Move)
    (i : Fin 3) (h : violates s.limits move i) :
    ∃ j : Fin 3, violates s.limits move j ∧
      (∀ k : Fin 3, k < j → ¬ violates s.limits move k) ∧
      check_move s move =
        .error (if (limAt s.limits j.val).1 > (limAt s.limits j.val).2
                then MoveError.mustHomeFirst else MoveError.outOfRange) := by
  obtain ⟨j, hj, hmin⟩ := exists_first_violation s.limits move i h
  exact ⟨j, hj, hmin, check_move_error_of_first_violation s move j hj hmin⟩

/-- Witness for C1: a move displacing unhomed axis 0 out of its sentinel
limit is rejected, with the Must home axis first reason. -/
theorem checkMove_rejects_displaced_out_of_limit_witness :
    ∃ j : Fin 3, violates stUnhomedXW.limits mvXOutW j ∧
      (∀ k : Fin 3, k < j → ¬ violates stUnhomedXW.limits mvXOutW k) ∧
      check_move stUnhomedXW mvXOutW =
        .error (if (limAt stUnhomedXW.limits j.val).1 >
                    (limAt stUnhomedXW.limits j.val).2
                then MoveError.mustHomeFirst else MoveError.outOfRange) :=
  checkMove_rejects_displaced_out_of_limit stUnhomedXW mvXOutW 0 (by decide)

/-- Counterexample to C1 as universally stated: in `stMixedW` the move
`mvMixedW` violates the unhomed axis 1 (sentinel limit), yet the failure
reason is the generic out-of-range error, raised for the lower-indexed
homed axis 0. -/
theorem checkMove_mixed_reason_counterexample :
    violates stMixedW.limits mvMixedW 1 ∧
    (limAt stMixedW.limits 1).1 > (limAt stMixedW.limits 1).2 ∧
    check_move stMixedW mvMixedW = .error MoveError.outOfRange ∧
    MoveError.outOfRange ≠ MoveError.mustHomeFirst :=
  ⟨by decide, by decide, rfl, by decide⟩

/-- Claim C7 (amended): `check_move` rejects every move that has nonzero
displacement on an axis in {0, 1} whose end position lies outside that
axis limit; the reason is Must home axis first when the lowest-indexed
violating axis has a sentinel limit, the generic error otherwise. -/
theorem checkMove_rejects_xy_displaced_out_of_limit (s : KinState)
    (move : Move) (i : Fin 3) (hi : i.val < 2)
    (h : violates s.limits move i) :
    ∃ j : Fin 3, violates s.limits move j ∧
      (∀ k : Fin 3, k < j → ¬ violates s.limits move k) ∧
      check_move s move =
        .error (if (limAt s.limits j.val).1 > (limAt s.limits j.val).2
                then MoveError.mustHomeFirst else MoveError.outOfRange) := by
  obtain ⟨j, hj, hmin⟩ := exists_first_violation s.limits move i h
  exact ⟨j, hj, hmin, check_move_error_of_first_violation s move j hj hmin⟩

/-- Witness for C7: a move displacing homed axis 0 beyond its limit is
rejected with the generic out-of-range reason. -/
theorem checkMove_rejects_xy_displaced_out_of_limit_witness :
    ∃ j : Fin 3, violates stHomedW.limits mvXOutW j ∧
      (∀ k : Fin 3, k < j → ¬ violates stHomedW.limits mvXOutW k) ∧
      check_move stHomedW mvXOutW =
        .error (if (limAt stHomedW.limits j.val).1 >
                    (limAt stHomedW.limits j.val).2
                then MoveError.mustHomeFirst else MoveError.outOfRange) :=
  checkMove_rejects_xy_displaced_out_of_limit stHomedW mvXOutW 0 (by decide)
    (by decide)

/-- Counterexample to C7 as stated: in `stUnhomedXW` the move `mvStillW`
ends outside the sentinel limit of axis 0 but displaces no axis, and
`check_move` accepts it instead of rejecting it. -/
theorem checkMove_zero_displacement_accepted_counterexample :
    (mvStillW.end_pos.get 0 < (limAt stUnhomedXW.limits 0).1 ∨
      mvStillW.end_pos.get 0 > (limAt stUnhomedXW.limits 0).2) ∧
    check_move stUnhomedXW mvStillW = .ok mvStillW :=
  ⟨by decide, rfl⟩

/-- Claim C10: `check_move` raises no error when every axis whose end
position lies outside its limit has zero displacement on that axis; in
particular a move that does not displace an unhomed axis is accepted even
though its end position violates the sentinel limit. -/
theorem checkMove_accepts_when_out_axes_undisplaced (s : KinState)
    (move : Move)
    (h : ∀ i : Fin 3,
      (move.end_pos.get i < (limAt s.limits i.val).1 ∨
        move.end_pos.get i > (limAt s.limits i.val).2) →
      move.axes_d.get i = 0) :
    ∃ res : Move, check_move s move = .ok res := by
  have hnv : ∀ i : Fin 3, ¬ violates s.limits move i := by
    intro i hv
    exact hv.1 (h i hv.2)
  have hce := check_endstops_ok s.limits move hnv
  unfold check_move
  by_cases hxy : move.end_pos.a0 < (limAt s.limits 0).1
      ∨ move.end_pos.a0 > (limAt s.limits 0).2
      ∨ move.end_pos.a1 < (limAt s.limits 1).1
      ∨ move.end_pos.a1 > (limAt s.limits 1).2
  · rw [if_pos hxy, hce]
    by_cases hz : move.axes_d.a2 = 0
    · exact ⟨move, by rw [if_pos hz]⟩
    · exact ⟨limit_speed move
          (s.max_z_velocity * (move.move_d / |move.axes_d.a2|))
          (s.max_z_accel * (move.move_d / |move.axes_d.a2|)),
        by rw [if_neg hz]⟩
  · rw [if_neg hxy]
    by_cases hz : move.axes_d.a2 = 0
    · exact ⟨move, by rw [if_pos hz]⟩
    · exact ⟨limit_speed move
          (s.max_z_velocity * (move.move_d / |move.axes_d.a2|))
          (s.max_z_accel * (move.move_d / |move.axes_d.a2|)),
        by rw [if_neg hz, hce]⟩

/-- Witness for C10: with all three axes unhomed, a move ending outside
every sentinel limit but displacing nothing is accepted. -/
theorem checkMove_accepts_when_out_axes_undisplaced_witness :
    ∃ res : Move, check_move stAllUnhomedW mvStillW = .ok res :=
  checkMove_accepts_when_out_axes_undisplaced stAllUnhomedW mvStillW
    (by decide)

/-- Claim C2 (amended): when the endstop diagnosis raises no error, a move
with zero axis-2 displacement passes `check_move` unmodified, and a move
with nonzero axis-2 displacement is returned with its velocity and
acceleration caps lowered (a minimum-of operation, never raising the
pre-existing caps) to `max_z_velocity * z_ratio` and `max_z_accel *
z_ratio` where `z_ratio = move_d / abs(axes_d[2])`. -/
theorem checkMove_z_derating (s : KinState) (move : Move)
    (hok : check_endstops s.limits move = .ok ()) :
    (move.axes_d.a2 = 0 → check_move s move = .ok move) ∧
    (move.axes_d.a2 ≠ 0 →
      check_move s move = .ok (limit_speed move
          (s.max_z_velocity * (move.move_d / |move.axes_d.a2|))
          (s.max_z_accel * (move.move_d / |move.axes_d.a2|))) ∧
      (limit_speed move
          (s.max_z_velocity * (move.move_d / |move.axes_d.a2|))
          (s.max_z_accel * (move.move_d / |move.axes_d.a2|))).max_velocity
        ≤ move.max_velocity ∧
      (limit_speed move
          (s.max_z_velocity * (move.move_d / |move.axes_d.a2|))
          (s.max_z_accel * (move.move_d / |move.axes_d.a2|))).max_accel
        ≤ move.max_accel) := by
  have hmain : check_move s move =
      (if move.axes_d.a2 = 0 then .ok move
       else .ok (limit_speed move
          (s.max_z_velocity * (move.move_d / |move.axes_d.a2|))
          (s.max_z_accel * (move.move_d / |move.axes_d.a2|)))) := by
    unfold check_move
    by_cases hxy : move.end_pos.a0 < (limAt s.limits 0).1
        ∨ move.end_pos.a0 > (limAt s.limits 0).2
        ∨ move.end_pos.a1 < (limAt s.limits 1).1
        ∨ move.end_pos.a1 > (limAt s.limits 1).2
    · rw [if_pos hxy, hok]
    · rw [if_neg hxy]
      by_cases hz : move.axes_d.a2 = 0
      · rw [if_pos hz, if_pos hz]
      · rw [if_neg hz, if_neg hz, hok]
  constructor
  · intro hz
    rw [hmain, if_pos hz]
  · intro hz
    refine ⟨by rw [hmain, if_neg hz], ?_, ?_⟩
    · exact min_le_left _ _
    · exact min_le_left _ _

/-- Witness for C2: an in-range pure-Z move is capped to
`max_z_velocity * 1` and `max_z_accel * 1`, and an in-range idle move
passes unmodified. -/
theorem checkMove_z_derating_witness :
    check_move stHomedW mvZW = .ok (limit_speed mvZW
      (stHomedW.max_z_velocity * (mvZW.move_d / |mvZW.axes_d.a2|))
      (stHomedW.max_z_accel * (mvZW.move_d / |mvZW.axes_d.a2|))) ∧
    check_move stHomedW mvIdleW = .ok mvIdleW :=
  ⟨((checkMove_z_derating stHomedW mvZW rfl).2 (by decide)).1,
    (checkMove_z_derating stHomedW mvIdleW rfl).1 (by decide)⟩

/-- Counterexample to C2 as stated: `mvXOutW` has zero displacement on
axis 2, yet `check_move` rejects it (its displaced axis-0 end position is
out of range) instead of returning success. -/
theorem checkMove_zero_z_rejected_counterexample :
    mvXOutW.axes_d.a2 = 0 ∧
    check_move stHomedW mvXOutW = .error MoveError.outOfRange :=
  ⟨rfl, rfl⟩

/-- Claim C4: `home` processes axes one at a time in the given order; for
each axis the emitted descriptor holds `homepos` with the endstop
coordinate on that axis only (all other slots null) and `forcepos` equal
to it offset by 1.5 times the distance between the endstop and the far
mechanical limit, away from the endstop trigger direction. -/
theorem home_sequential_descriptors (s : KinState) (axes : List (Fin 3))
    (k : Nat) (hk : k < axes.length) (r : Rail)
    (hr : s.rails.getD (axes.getD k 0).val default = r) :
    (home s axes).length = axes.length ∧
    (home s axes).getD k default =
      { rails := [r],
        forcepos := ([none, none, none, none] : List (Option ℚ)).set
          (axes.getD k 0).val
          (some (if r.positive_dir
                 then r.position_endstop
                      - 3/2 * (r.position_endstop - r.position_min)
                 else r.position_endstop
                      + 3/2 * (r.position_max - r.position_endstop))),
        homepos := ([none, none, none, none] : List (Option ℚ)).set
          (axes.getD k 0).val (some r.position_endstop) } := by
  constructor
  · simp [home]
  · have hget : axes.getD k 0 = axes.get ⟨k, hk⟩ := by
      rw [List.getD_eq_getElem?_getD, List.getElem?_eq_getElem hk]
      rfl
    have hmapd : (home s axes).getD k default =
        home_axis s (axes.get ⟨k, hk⟩) := by
      rw [home, List.getD_eq_getElem?_getD, List.getElem?_map,
        List.getElem?_eq_getElem hk]
      rfl
    rw [hget] at hr ⊢
    rw [hmapd]
    unfold home_axis
    rw [hr]
    by_cases hd : r.positive_dir <;> simp [hd, List.set_set]

/-- Witness for C4, the spec example: rail with endstop 200,
positive-direction trigger and range `[0, 200]` yields
`forcepos[axis] = -100` and `homepos[axis] = 200`, other slots null. -/
theorem home_sequential_descriptors_witness :
    (home stHomedW [(1 : Fin 3)]).length = 1 ∧
    (home stHomedW [(1 : Fin 3)]).getD 0 default =
      { rails := [railW "b" 2],
        forcepos := [none, some (-100), none, none],
        homepos := [none, some 200, none, none] } := by
  have h := home_sequential_descriptors stHomedW [(1 : Fin 3)] 0 (by decide)
    (railW "b" 2) (by decide)
  refine ⟨h.1, ?_⟩
  rw [h.2]
  norm_num [railW, List.getD, List.set]

/-- Claim C5 evaluation: the axis-count mismatch raises the configuration
error naming both inputs, construction with 3 matched axes succeeds, but
construction with 1 or 2 matched axes fails with an index error because
the code indexes `rails[1]` and `rails[2]` unconditionally — contradicting
the code comments that advertise axis sets of length up to 3. -/
theorem construction_length_behavior :
    mkKinematics [3, 4] ['A', 'B', 'C'] lookupW 5 5 =
      .error (.configError (mismatchMsg [3, 4] ['A', 'B', 'C'])) ∧
    (∃ st : KinState,
      mkKinematics [3, 4, 5] ['A', 'B', 'C'] lookupW 5 5 = .ok st) ∧
    mkKinematics [3, 4] ['A', 'B'] lookupW 5 5 = .error .indexError ∧
    mkKinematics [3] ['A'] lookupW 5 5 = .error .indexError :=
  ⟨rfl, ⟨stCW, rfl⟩, rfl, rfl⟩

/-- Claim C8: `get_status` reports exactly the letters (fixed order x, y,
z) of the limit slots with `low <= high`, plus the configured axis bounds;
after `reset_limits` the homed string is empty, and after `set_position`
with homing axes {0, 1} it is exactly "xy". -/
theorem get_status_homed_axes_spec (st : KinState) (l0 l1 l2 : ℚ × ℚ)
    (r0 r1 r2 : Rail) (newpos : Vec3)
    (hl : st.limits = [l0, l1, l2]) (hr : st.rails = [r0, r1, r2])
    (h0 : r0.position_min ≤ r0.position_max)
    (h1 : r1.position_min ≤ r1.position_max) :
    (get_status st).homed_axes = String.mk
        ((if l0.1 ≤ l0.2 then ['x'] else []) ++
         (if l1.1 ≤ l1.2 then ['y'] else []) ++
         (if l2.1 ≤ l2.2 then ['z'] else [])) ∧
    (get_status st).axis_minimum = st.axes_min ∧
    (get_status st).axis_maximum = st.axes_max ∧
    (get_status (reset_limits st)).homed_axes = "" ∧
    (get_status (set_position (reset_limits st) newpos [0, 1])).homed_axes
      = "xy" := by
  refine ⟨?_, rfl, rfl, ?_, ?_⟩
  · by_cases c0 : l0.1 ≤ l0.2 <;> by_cases c1 : l1.1 ≤ l1.2 <;>
      by_cases c2 : l2.1 ≤ l2.2 <;>
        simp [get_status, hl, c0, c1, c2]
  · norm_num [get_status, reset_limits, List.replicate, List.filterMap_cons]
  · rw [set_position_rails3 (reset_limits st) r0 r1 r2 (1, -1) (1, -1)
      (1, -1) (by simp [reset_limits, hr]) rfl newpos [0, 1]]
    norm_num [get_status, Rail.get_range, h0, h1, List.filterMap_cons]

/-- Witness for C8 on the fully homed fixture. -/
theorem get_status_homed_axes_spec_witness :
    (get_status stHomedW).homed_axes = "xyz" ∧
    (get_status (reset_limits stHomedW)).homed_axes = "" ∧
    (get_status (set_position (reset_limits stHomedW) ⟨1, 2, 3⟩ [0, 1])).homed_axes
      = "xy" := by
  have h := get_status_homed_axes_spec stHomedW (0, 100) (0, 100) (0, 100)
    (railW "a" 1) (railW "b" 2) (railW "c" 3) ⟨1, 2, 3⟩ rfl rfl (by decide)
    (by decide)
  refine ⟨?_, h.2.2.2.1, h.2.2.2.2⟩
  rw [h.1]
  decide

/-- Claim C9: after any successful construction, every stepper of rail 0
is registered with rail 1 endstop and every stepper of rail 1 with rail 0
endstop. -/
theorem endstop_cross_registration (axes_ids : List Nat)
    (axis_set_letters : List Char) (lookupRail : Char → Rail)
    (mzv mza : ℚ) (st : KinState)
    (hok : mkKinematics axes_ids axis_set_letters lookupRail mzv mza
      = .ok st) :
    (∀ x ∈ (st.rails.getD 0 default).steppers,
        x ∈ (st.rails.getD 1 default).endstop_steppers) ∧
    (∀ x ∈ (st.rails.getD 1 default).steppers,
        x ∈ (st.rails.getD 0 default).endstop_steppers) := by
  unfold mkKinematics at hok
  split at hok
  · simp at hok
  · split at hok
    · split at hok
      · split at hok
        · injection hok with h
          subst h
          refine ⟨fun x hx => ?_, fun x hx => ?_⟩
          · simp only [List.getD_cons_zero, List.getD_cons_succ,
              List.mem_append] at hx ⊢
            exact Or.inr hx
          · simp only [List.getD_cons_zero, List.getD_cons_succ,
              List.mem_append] at hx ⊢
            exact Or.inr hx
        · simp at hok
      · simp at hok
    · simp at hok

/-- Witness for C9 at the concrete A, B, C construction. -/
theorem endstop_cross_registration_witness :
    (∀ x ∈ (stCW.rails.getD 0 default).steppers,
        x ∈ (stCW.rails.getD 1 default).endstop_steppers) ∧
    (∀ x ∈ (stCW.rails.getD 1 default).steppers,
        x ∈ (stCW.rails.getD 0 default).endstop_steppers) :=
  endstop_cross_registration [3, 4, 5] ['A', 'B', 'C'] lookupW 5 5 stCW rfl

end CoreXY
